import Mathlib

/-!
Verification of the spherical-polar grid engine
(`src/hyperion/grid/spherical_polar_grid.py`).

The embedding is a shallow translation of the Python source into Lean.
Numpy floating-point arrays are modelled over an arbitrary linear ordered
field `α` (instantiated at `ℚ` for concrete evaluation and at `ℝ` for the
transcendental statements); the transcendental numpy functions
(`np.cos`, `np.sin`, `np.log10`, `10. ** _`) are passed in as a record of
functions so that the definitions stay computable — the theorems about real
trigonometric identities instantiate them with `Real.cos`, `Real.sin`, etc.

1-D numpy arrays are shape-plus-flat-data records; the 3-D and 4-D derived
arrays (`volumes`, `areas`, `widths`, the broadcast fields) are records of
explicit dimensions plus an index function, which mirrors numpy's
elementwise broadcast arithmetic one formula at a time.
-/

namespace Hyperion

/-- A numpy `ndarray`: a shape together with the row-major flat data. -/
structure NDArray (α : Type) where
  shape : List ℕ
  data : List α
  deriving DecidableEq, Repr

/-- Python `array[i]` on a 1-D array (out-of-range reads default to 0;
all verified accesses are in range). -/
def wget [Zero α] (a : NDArray α) (i : ℕ) : α :=
  a.data.getD i 0

/-- A 3-D numpy array of shape `(d1, d2, d3)`, as an index function. -/
structure Arr3 (α : Type) where
  d1 : ℕ
  d2 : ℕ
  d3 : ℕ
  val : ℕ → ℕ → ℕ → α

/-- A 4-D numpy array of shape `(d0, d1, d2, d3)`, as an index function. -/
structure Arr4 (α : Type) where
  d0 : ℕ
  d1 : ℕ
  d2 : ℕ
  d3 : ℕ
  val : ℕ → ℕ → ℕ → ℕ → α

/-- A quantity value as accepted by `_check_array_dimensions`: a single
numpy array, a Python list/tuple of numpy arrays, or anything else. -/
inductive PyVal (α : Type) where
  | arr : NDArray α → PyVal α
  | lst : List (NDArray α) → PyVal α
  | other : String → PyVal α
  deriving DecidableEq

/-- The Python exceptions raised by the module.  `valueShapeError` is a
`ValueError` whose message interpolates the offending shape and the
expected shape (`"... %s instead of %s"`); `attributeError` is the
`AttributeError` raised when a missing attribute is looked up. -/
inductive PyErr where
  | valueError (msg : String)
  | valueShapeError (msg : String) (got : List ℕ) (expected : Option (List ℕ))
  | attributeError (attr : String)
  | indexError (msg : String)
  deriving DecidableEq, Repr

/-- The transcendental numpy operations used by `set_walls`, abstracted so
that the embedding stays computable.  `exp10 x` stands for `10. ** x`. -/
structure Transcend (α : Type) where
  cos : α → α
  sin : α → α
  log10 : α → α
  exp10 : α → α

/-- Modelled from the spec: `monotonically_increasing` from
`hyperion.util.functions` (the helper module is not under `src/`).
Per §3 of the spec the wall arrays must be "strictly monotonically
increasing (no repeated or decreasing adjacent values)". -/
def monotonically_increasing [LinearOrder α] : List α → Bool
  | [] => true
  | [_] => true
  | x :: y :: rest => decide (x < y) && monotonically_increasing (y :: rest)

/-- Modelled from the spec: `meshgrid_nd` from `hyperion.util.meshgrid`
(not under `src/`).  Per §3 and the glossary, each per-axis 1-D array is
"expanded to a full 3-D field by outer-product replication across the
other two axes"; `meshgrid_nd(a, b, c)` yields three arrays of shape
`(len c, len b, len a)` with `ga[k,j,i] = a[i]`, `gb[k,j,i] = b[j]`,
`gc[k,j,i] = c[k]`. -/
def meshgrid_nd [Zero α] (a b c : NDArray α) : Arr3 α × Arr3 α × Arr3 α :=
  (⟨c.data.length, b.data.length, a.data.length, fun _ _ i => wget a i⟩,
   ⟨c.data.length, b.data.length, a.data.length, fun _ j _ => wget b j⟩,
   ⟨c.data.length, b.data.length, a.data.length, fun k _ _ => wget c k⟩)

/-- The numpy slice `a[:-1]` of a 1-D array. -/
def lowerSlice (a : NDArray α) : NDArray α :=
  ⟨[a.data.length - 1], a.data.dropLast⟩

/-- The numpy slice `a[1:]` of a 1-D array. -/
def upperSlice (a : NDArray α) : NDArray α :=
  ⟨[a.data.length - 1], a.data.drop 1⟩

/-- The state of a `SphericalPolarGrid` instance.  `__init__` sets every
field to `None` (here `none`) and the quantity mapping to `{}`. -/
structure Grid (α : Type) where
  nr : Option ℕ
  nt : Option ℕ
  np : Option ℕ
  shape : Option (List ℕ)
  r_wall : Option (NDArray α)
  t_wall : Option (NDArray α)
  p_wall : Option (NDArray α)
  r : Option (NDArray α)
  t : Option (NDArray α)
  p : Option (NDArray α)
  gr : Option (Arr3 α)
  gt : Option (Arr3 α)
  gp : Option (Arr3 α)
  gw : Option (Arr3 α)
  gz : Option (Arr3 α)
  volumes : Option (Arr3 α)
  areas : Option (Arr4 α)
  widths : Option (Arr4 α)
  quantities : List (String × PyVal α)

/-- The state produced by `SphericalPolarGrid.__init__` (before any
`set_walls` call): every field `None`, no quantities. -/
def Grid.init (α : Type) : Grid α :=
  ⟨none, none, none, none, none, none, none, none, none, none,
   none, none, none, none, none, none, none, none, []⟩

/-- The derived state computed by the body of `set_walls` (source lines
69-163) on a run that completes: cell counts, shape, walls, centers,
broadcast fields, volumes, areas and widths.  The `quantities` field is
untouched by `set_walls`; it is filled in by the caller.  `wget` reads
out of range as 0 and `List.set` past the end is a no-op, so this
definition is total even on the degenerate wall lengths (an empty array,
a radial wall array `[0.]`) on which the source instead raises mid-way;
those crashing runs are modelled statement-by-statement by
`set_walls_trace` below, and `set_walls_trace_agrees` proves that on
every input where the source completes the two models coincide. -/
def buildGrid [LinearOrderedField α] (ops : Transcend α)
    (r_wall t_wall p_wall : NDArray α) : Grid α :=
  -- Find number of grid cells
  let nr := r_wall.data.length - 1
  let nt := t_wall.data.length - 1
  let np := p_wall.data.length - 1
  -- Compute cell centers; r uses the geometric mean
  -- 10. ** ((np.log10(r_wall[:-1]) + np.log10(r_wall[1:])) / 2.),
  -- overwriting r[0] with r_wall[1] / 2. when r_wall[0] == 0.
  let r0 : NDArray α :=
    ⟨[nr], (List.range nr).map fun i =>
      ops.exp10 ((ops.log10 (wget r_wall i) + ops.log10 (wget r_wall (i + 1))) / 2)⟩
  let r : NDArray α :=
    if wget r_wall 0 = 0 then ⟨[nr], r0.data.set 0 (wget r_wall 1 / 2)⟩ else r0
  let t : NDArray α :=
    ⟨[nt], (List.range nt).map fun j => (wget t_wall j + wget t_wall (j + 1)) / 2⟩
  let p : NDArray α :=
    ⟨[np], (List.range np).map fun k => (wget p_wall k + wget p_wall (k + 1)) / 2⟩
  -- Generate 3D versions of r, t, p
  let m := meshgrid_nd r t p
  let gr := m.1
  let gt := m.2.1
  let gp := m.2.2
  -- Compute cell centers in cylindrical coordinates
  let gz : Arr3 α := ⟨gr.d1, gr.d2, gr.d3, fun k j i =>
    gr.val k j i * ops.cos (gt.val k j i)⟩
  let gw : Arr3 α := ⟨gr.d1, gr.d2, gr.d3, fun k j i =>
    gr.val k j i * ops.sin (gt.val k j i)⟩
  -- Generate 3D versions of the inner and outer wall positions
  let mmin := meshgrid_nd (lowerSlice r_wall) (lowerSlice t_wall) (lowerSlice p_wall)
  let gr_wall_min := mmin.1
  let gt_wall_min := mmin.2.1
  let mmax := meshgrid_nd (upperSlice r_wall) (upperSlice t_wall) (upperSlice p_wall)
  let gr_wall_max := mmax.1
  let gt_wall_max := mmax.2.1
  -- USEFUL QUANTITIES
  let dr : Arr3 α := ⟨gr_wall_max.d1, gr_wall_max.d2, gr_wall_max.d3, fun k j i =>
    gr_wall_max.val k j i - gr_wall_min.val k j i⟩
  let dr2 : Arr3 α := ⟨gr_wall_max.d1, gr_wall_max.d2, gr_wall_max.d3, fun k j i =>
    gr_wall_max.val k j i ^ 2 - gr_wall_min.val k j i ^ 2⟩
  let dr3 : Arr3 α := ⟨gr_wall_max.d1, gr_wall_max.d2, gr_wall_max.d3, fun k j i =>
    gr_wall_max.val k j i ^ 3 - gr_wall_min.val k j i ^ 3⟩
  let dt : Arr3 α := ⟨gt_wall_max.d1, gt_wall_max.d2, gt_wall_max.d3, fun k j i =>
    gt_wall_max.val k j i - gt_wall_min.val k j i⟩
  let dcost : Arr3 α := ⟨gt_wall_min.d1, gt_wall_min.d2, gt_wall_min.d3, fun k j i =>
    ops.cos (gt_wall_min.val k j i) - ops.cos (gt_wall_max.val k j i)⟩
  let dp : Arr3 α := ⟨mmax.2.2.d1, mmax.2.2.d2, mmax.2.2.d3, fun k j i =>
    mmax.2.2.val k j i - mmin.2.2.val k j i⟩
  -- CELL VOLUMES: V = [r2^3 - r1^3] / 3 * [cos(t1) - cos(t2)] * [p2 - p1]
  let volumes : Arr3 α := ⟨dr3.d1, dr3.d2, dr3.d3, fun k j i =>
    dr3.val k j i * dcost.val k j i * dp.val k j i / 3⟩
  -- WALL AREAS: np.zeros((6, np, nt, nr)) followed by six full-slice
  -- assignments, one per face, so the final array is the face-indexed
  -- formula below
  let areas : Arr4 α := ⟨6, np, nt, nr, fun f k j i =>
    if f = 0 then gr_wall_min.val k j i ^ 2 * dcost.val k j i * dp.val k j i
    else if f = 1 then gr_wall_max.val k j i ^ 2 * dcost.val k j i * dp.val k j i
    else if f = 2 then 0.5 * dr2.val k j i * ops.sin (gt_wall_min.val k j i) * dp.val k j i
    else if f = 3 then 0.5 * dr2.val k j i * ops.sin (gt_wall_max.val k j i) * dp.val k j i
    else if f = 4 then 0.5 * dr2.val k j i * dt.val k j i
    else if f = 5 then 0.5 * dr2.val k j i * dt.val k j i
    else 0⟩
  -- CELL WIDTHS: np.zeros((3, np, nt, nr)) followed by three full-slice
  -- assignments
  let widths : Arr4 α := ⟨3, np, nt, nr, fun f k j i =>
    if f = 0 then dr.val k j i
    else if f = 1 then gr.val k j i * dt.val k j i
    else if f = 2 then gr.val k j i * ops.sin (gt.val k j i) * dp.val k j i
    else 0⟩
  { nr := some nr, nt := some nt, np := some np,
    shape := some [np, nt, nr],
    r_wall := some r_wall, t_wall := some t_wall, p_wall := some p_wall,
    r := some r, t := some t, p := some p,
    gr := some gr, gt := some gt, gp := some gp,
    gw := some gw, gz := some gz,
    volumes := some volumes, areas := some areas, widths := some widths,
    quantities := [] }

/-- `SphericalPolarGrid.set_walls` (source lines 46-163), as the model of
a call that either fails validation or completes.  List/tuple inputs are
already covered by `NDArray` (the `np.array` conversion at lines 48-53
rebinds locals only).  All six validation `raise` sites (lines 55-67)
precede every mutation of `self`, so a validation failure returns the
grid unchanged together with the raised `ValueError`.  The source has
three further, post-mutation crash points that this completed-call model
does not reach — an empty `r_wall` raises `IndexError` at line 83, a
radial wall array `[0.]` raises `IndexError` at line 84, and an empty
`t_wall`/`p_wall` raises `ValueError` inside line 120's `np.zeros` —
those runs, including the partial state they leave behind, are modelled
by `set_walls_trace`, which `set_walls_trace_agrees` proves equal to
this definition on every other input. -/
def set_walls [LinearOrderedField α] (ops : Transcend α) (g : Grid α)
    (r_wall t_wall p_wall : NDArray α) : Grid α × Option PyErr :=
  if r_wall.shape.length ≠ 1 then
    (g, some (.valueError "r_wall should be a 1-D sequence"))
  else if t_wall.shape.length ≠ 1 then
    (g, some (.valueError "t_wall should be a 1-D sequence"))
  else if p_wall.shape.length ≠ 1 then
    (g, some (.valueError "p_wall should be a 1-D sequence"))
  else if !monotonically_increasing r_wall.data then
    (g, some (.valueError "r_wall should be monotonically increasing"))
  else if !monotonically_increasing t_wall.data then
    (g, some (.valueError "t_wall should be monotonically increasing"))
  else if !monotonically_increasing p_wall.data then
    (g, some (.valueError "p_wall should be monotonically increasing"))
  else
    ({ buildGrid ops r_wall t_wall p_wall with quantities := g.quantities }, none)

/-- `SphericalPolarGrid.set_walls` traced statement by statement,
including the source's post-validation crash points and the partial
state each leaves behind.  After the six validation checks, lines 70-82
replace `nr`, `nt`, `np`, `shape`, the stored walls and `r`; then

* line 83 (`if r_wall[0] == 0.`) raises `IndexError` when `r_wall` is
  empty;
* line 84 (`self.r[0] = r_wall[1] / 2.`) raises `IndexError` when
  `r_wall` is `[0.]` (no second wall to read);
* otherwise lines 84-116 complete — replacing `r`, `t`, `p`, the
  broadcast fields and `volumes` — and line 120's
  `np.zeros((6, np, nt, nr))` raises `ValueError` on the negative cell
  count of an empty `t_wall` or `p_wall`, before `areas` and `widths`
  are replaced;
* otherwise the call completes with the full `buildGrid` state.

In the empty-wall branches the source's Python cell counts are `-1`
where this `ℕ`-valued model truncates to `0`; the nonempty failing input
`r_wall = [0.]` used as C7 evidence has no such residue — every field of
its partial state matches the source exactly. -/
def set_walls_trace [LinearOrderedField α] (ops : Transcend α) (g : Grid α)
    (r_wall t_wall p_wall : NDArray α) : Grid α × Option PyErr :=
  if r_wall.shape.length ≠ 1 then
    (g, some (.valueError "r_wall should be a 1-D sequence"))
  else if t_wall.shape.length ≠ 1 then
    (g, some (.valueError "t_wall should be a 1-D sequence"))
  else if p_wall.shape.length ≠ 1 then
    (g, some (.valueError "p_wall should be a 1-D sequence"))
  else if !monotonically_increasing r_wall.data then
    (g, some (.valueError "r_wall should be monotonically increasing"))
  else if !monotonically_increasing t_wall.data then
    (g, some (.valueError "t_wall should be monotonically increasing"))
  else if !monotonically_increasing p_wall.data then
    (g, some (.valueError "p_wall should be monotonically increasing"))
  else
    -- lines 70-82: cell counts, shape, stored walls and r replaced
    let g1 : Grid α :=
      { g with
        nr := some (r_wall.data.length - 1),
        nt := some (t_wall.data.length - 1),
        np := some (p_wall.data.length - 1),
        shape := some [p_wall.data.length - 1, t_wall.data.length - 1,
          r_wall.data.length - 1],
        r_wall := some r_wall, t_wall := some t_wall, p_wall := some p_wall,
        r := some ⟨[r_wall.data.length - 1],
          (List.range (r_wall.data.length - 1)).map fun i =>
            ops.exp10 ((ops.log10 (wget r_wall i) +
              ops.log10 (wget r_wall (i + 1))) / 2)⟩ }
    if r_wall.data.length = 0 then
      (g1, some (.indexError "index 0 is out of bounds for axis 0 with size 0"))
    else if wget r_wall 0 = 0 ∧ r_wall.data.length = 1 then
      (g1, some (.indexError "index 1 is out of bounds for axis 0 with size 1"))
    else if t_wall.data.length = 0 ∨ p_wall.data.length = 0 then
      ({ buildGrid ops r_wall t_wall p_wall with
          areas := g.areas, widths := g.widths, quantities := g.quantities },
       some (.valueError "negative dimensions are not allowed"))
    else
      ({ buildGrid ops r_wall t_wall p_wall with quantities := g.quantities },
       none)

/-- Aggregate of the six validation checks of `set_walls`: every input is
1-dimensional and strictly monotonically increasing. -/
def walls_ok [LinearOrder α] (r_wall t_wall p_wall : NDArray α) : Bool :=
  (r_wall.shape.length == 1) && (t_wall.shape.length == 1) &&
  (p_wall.shape.length == 1) &&
  monotonically_increasing r_wall.data &&
  monotonically_increasing t_wall.data &&
  monotonically_increasing p_wall.data

/-- The 4-D stacking computed inside `_check_array_dimensions` (source
lines 176-179): `shape = [len(array)] + list(self.shape)` and
`np.vstack(array).reshape(*shape)`.  The source binds this value to the
local variable `array` and then returns `None`, so the stacked array is
discarded and never stored. -/
def stack_list (g : Grid α) (items : List (NDArray α)) : NDArray α :=
  ⟨items.length :: g.shape.getD [], (items.map (·.data)).flatten⟩

/-- `SphericalPolarGrid._check_array_dimensions` (source lines 165-190).
The function only validates: on a list it raises at the first item whose
shape differs from `self.shape` and otherwise returns `None` (the 4-D
conversion of lines 176-179 is bound to a local and dropped); on a numpy
array it raises when the shape differs from `self.shape`; on anything
else it raises unconditionally. -/
def check_array_dimensions (g : Grid α) (array : PyVal α) : Except PyErr Unit :=
  match array with
  | .lst items =>
    match items.find? (fun item => !(some item.shape == g.shape)) with
    | some item =>
      .error (.valueShapeError "Arrays in list do not have the right dimensions"
        item.shape g.shape)
    | none => .ok ()
  | .arr a =>
    if some a.shape ≠ g.shape then
      .error (.valueShapeError "Array does not have the right dimensions"
        a.shape g.shape)
    else .ok ()
  | .other _ => .error (.valueError "Array should be a list or a Numpy array")

/-- The `Geometry` section of a stored container (spec §6): the
`grid_type` and `geometry` (fingerprint) attributes and the three wall
datasets `Walls 1`, `Walls 2`, `Walls 3`. -/
structure GeometryGroup (α : Type) where
  grid_type : String
  geometry : String
  walls1 : NDArray α
  walls2 : NDArray α
  walls3 : NDArray α

/-- A stored container holding a `Geometry` section and a `Physics`
section (one dataset per quantity name), per spec §6. -/
structure H5Group (α : Type) where
  geo : GeometryGroup α
  physics : List (String × NDArray α)

/-- `SphericalPolarGrid.read` (source lines 192-226).  The grid-type
check at line 212 raises `ValueError("Grid is not spherical polar")`
before anything else touches the grid.  Line 215 then evaluates
`self.set(...)`: the class defines no attribute `set` (the wall-setting
method of this class is `set_walls`, as `__init__` itself calls at line
44, and the `FreezableClass` base described in spec §9 is only a
field-freezing guard), so attribute lookup raises `AttributeError`
before the fingerprint comparison at line 218 and before the physics
loop at line 223. -/
def read (g : Grid α) (group : H5Group α)
    (_qsel : Option (List String)) : Grid α × Option PyErr :=
  if group.geo.grid_type ≠ "sph_pol" then
    (g, some (.valueError "Grid is not spherical polar"))
  else
    (g, some (.attributeError "set"))

/-- Sum of all entries of a 3-D array (used to state the total-volume
claim; the component itself performs no cross-cell reduction). -/
def Arr3.total [AddCommMonoid α] (a : Arr3 α) : α :=
  ∑ k ∈ Finset.range a.d1, ∑ j ∈ Finset.range a.d2, ∑ i ∈ Finset.range a.d3,
    a.val k j i

/-- Sum of all cell volumes of a grid (0 before any `set_walls`). -/
def sumVolumes [AddCommMonoid α] (g : Grid α) : α :=
  match g.volumes with
  | some v => v.total
  | none => 0

/-! ### Access lemmas for the array embedding -/

theorem getD_lt (l : List α) (i : ℕ) (d : α) (h : i < l.length) :
    l.getD i d = l[i] := by
  simp [List.getD_eq_getElem?_getD, List.getElem?_eq_getElem h]

theorem wget_lowerSlice [Zero α] (a : NDArray α) (i : ℕ)
    (h : i + 1 < a.data.length) : wget (lowerSlice a) i = wget a i := by
  have h1 : i < a.data.dropLast.length := by
    simpa [List.length_dropLast] using Nat.lt_sub_of_add_lt h
  unfold wget lowerSlice
  rw [getD_lt _ _ _ h1, getD_lt _ _ _ (by omega), List.getElem_dropLast]

theorem wget_upperSlice [Zero α] (a : NDArray α) (i : ℕ)
    (h : i + 1 < a.data.length) : wget (upperSlice a) i = wget a (i + 1) := by
  have h1 : i < (a.data.drop 1).length := by
    simp only [List.length_drop]; omega
  unfold wget upperSlice
  rw [getD_lt _ _ _ h1, getD_lt _ _ _ h, List.getElem_drop]
  congr 1
  omega

theorem wget_rangeMap [Zero α] (f : ℕ → α) (s : List ℕ) (n i : ℕ) (h : i < n) :
    wget ⟨s, (List.range n).map f⟩ i = f i := by
  have h1 : i < ((List.range n).map f).length := by simpa using h
  unfold wget
  rw [getD_lt _ _ _ h1]
  simp

/-! ### Evaluation lemmas for `set_walls` -/

theorem set_walls_ok_eq [LinearOrderedField α] (ops : Transcend α) (g : Grid α)
    (r_wall t_wall p_wall : NDArray α)
    (h : walls_ok r_wall t_wall p_wall = true) :
    set_walls ops g r_wall t_wall p_wall =
      ({ buildGrid ops r_wall t_wall p_wall with quantities := g.quantities },
       none) := by
  simp only [walls_ok, Bool.and_eq_true, beq_iff_eq] at h
  obtain ⟨⟨⟨⟨⟨h1, h2⟩, h3⟩, h4⟩, h5⟩, h6⟩ := h
  simp [set_walls, h1, h2, h3, h4, h5, h6]

theorem set_walls_fail_eq [LinearOrderedField α] (ops : Transcend α) (g : Grid α)
    (r_wall t_wall p_wall : NDArray α)
    (h : walls_ok r_wall t_wall p_wall = false) :
    ∃ msg, set_walls ops g r_wall t_wall p_wall =
      (g, some (.valueError msg)) := by
  unfold set_walls
  split_ifs with h1 h2 h3 h4 h5 h6
  · exact ⟨_, rfl⟩
  · exact ⟨_, rfl⟩
  · exact ⟨_, rfl⟩
  · exact ⟨_, rfl⟩
  · exact ⟨_, rfl⟩
  · exact ⟨_, rfl⟩
  · exfalso
    rw [walls_ok] at h
    simp at h1 h2 h3 h4 h5 h6
    simp [h1, h2, h3, h4, h5, h6] at h

/-- On every input where the source completes — `r_wall` nonempty, not
the single wall `[0.]`, and `t_wall`, `p_wall` nonempty — the traced
model coincides with the completed-call model `set_walls` (both on the
validation-failure branches, which precede all mutation, and on the
successful branch). -/
theorem set_walls_trace_agrees [LinearOrderedField α] (ops : Transcend α)
    (g : Grid α) (r_wall t_wall p_wall : NDArray α)
    (h1 : r_wall.data.length ≠ 0)
    (h2 : ¬(wget r_wall 0 = 0 ∧ r_wall.data.length = 1))
    (h3 : t_wall.data.length ≠ 0) (h4 : p_wall.data.length ≠ 0) :
    set_walls_trace ops g r_wall t_wall p_wall =
      set_walls ops g r_wall t_wall p_wall := by
  unfold set_walls_trace set_walls
  split_ifs with c1 c2 c3 c4 c5 c6 c7
  · rfl
  · rfl
  · rfl
  · rfl
  · rfl
  · rfl
  · rcases c7 with hc | hc
    · exact absurd hc h3
    · exact absurd hc h4
  · rfl

theorem buildGrid_volumes [LinearOrderedField α] (ops : Transcend α)
    (r_wall t_wall p_wall : NDArray α) :
    (buildGrid ops r_wall t_wall p_wall).volumes = some
      ⟨(upperSlice p_wall).data.length, (upperSlice t_wall).data.length,
       (upperSlice r_wall).data.length,
       fun k j i =>
        (wget (upperSlice r_wall) i ^ 3 - wget (lowerSlice r_wall) i ^ 3) *
          (ops.cos (wget (lowerSlice t_wall) j) -
            ops.cos (wget (upperSlice t_wall) j)) *
          (wget (upperSlice p_wall) k - wget (lowerSlice p_wall) k) / 3⟩ :=
  rfl

theorem buildGrid_r [LinearOrderedField α] (ops : Transcend α)
    (r_wall t_wall p_wall : NDArray α) :
    (buildGrid ops r_wall t_wall p_wall).r = some (
      if wget r_wall 0 = 0 then
        ⟨[r_wall.data.length - 1],
         ((List.range (r_wall.data.length - 1)).map fun i =>
            ops.exp10 ((ops.log10 (wget r_wall i) +
              ops.log10 (wget r_wall (i + 1))) / 2)).set 0 (wget r_wall 1 / 2)⟩
      else
        ⟨[r_wall.data.length - 1],
         (List.range (r_wall.data.length - 1)).map fun i =>
            ops.exp10 ((ops.log10 (wget r_wall i) +
              ops.log10 (wget r_wall (i + 1))) / 2)⟩) :=
  rfl

theorem buildGrid_t [LinearOrderedField α] (ops : Transcend α)
    (r_wall t_wall p_wall : NDArray α) :
    (buildGrid ops r_wall t_wall p_wall).t = some
      ⟨[t_wall.data.length - 1],
       (List.range (t_wall.data.length - 1)).map fun j =>
          (wget t_wall j + wget t_wall (j + 1)) / 2⟩ :=
  rfl

theorem buildGrid_p [LinearOrderedField α] (ops : Transcend α)
    (r_wall t_wall p_wall : NDArray α) :
    (buildGrid ops r_wall t_wall p_wall).p = some
      ⟨[p_wall.data.length - 1],
       (List.range (p_wall.data.length - 1)).map fun k =>
          (wget p_wall k + wget p_wall (k + 1)) / 2⟩ :=
  rfl

theorem buildGrid_areas [LinearOrderedField α] (ops : Transcend α)
    (r_wall t_wall p_wall : NDArray α) :
    (buildGrid ops r_wall t_wall p_wall).areas = some
      ⟨6, p_wall.data.length - 1, t_wall.data.length - 1,
       r_wall.data.length - 1,
       fun f k j i =>
        if f = 0 then
          wget (lowerSlice r_wall) i ^ 2 *
            (ops.cos (wget (lowerSlice t_wall) j) -
              ops.cos (wget (upperSlice t_wall) j)) *
            (wget (upperSlice p_wall) k - wget (lowerSlice p_wall) k)
        else if f = 1 then
          wget (upperSlice r_wall) i ^ 2 *
            (ops.cos (wget (lowerSlice t_wall) j) -
              ops.cos (wget (upperSlice t_wall) j)) *
            (wget (upperSlice p_wall) k - wget (lowerSlice p_wall) k)
        else if f = 2 then
          0.5 * (wget (upperSlice r_wall) i ^ 2 - wget (lowerSlice r_wall) i ^ 2) *
            ops.sin (wget (lowerSlice t_wall) j) *
            (wget (upperSlice p_wall) k - wget (lowerSlice p_wall) k)
        else if f = 3 then
          0.5 * (wget (upperSlice r_wall) i ^ 2 - wget (lowerSlice r_wall) i ^ 2) *
            ops.sin (wget (upperSlice t_wall) j) *
            (wget (upperSlice p_wall) k - wget (lowerSlice p_wall) k)
        else if f = 4 then
          0.5 * (wget (upperSlice r_wall) i ^ 2 - wget (lowerSlice r_wall) i ^ 2) *
            (wget (upperSlice t_wall) j - wget (lowerSlice t_wall) j)
        else if f = 5 then
          0.5 * (wget (upperSlice r_wall) i ^ 2 - wget (lowerSlice r_wall) i ^ 2) *
            (wget (upperSlice t_wall) j - wget (lowerSlice t_wall) j)
        else 0⟩ :=
  rfl

theorem upperSlice_data_length (a : NDArray α) :
    (upperSlice a).data.length = a.data.length - 1 := by
  simp [upperSlice]

theorem triple_sum_div3 [LinearOrderedField α] (A B C : ℕ → α) (I J K : ℕ) :
    (∑ k ∈ Finset.range K, ∑ j ∈ Finset.range J, ∑ i ∈ Finset.range I,
        A i * B j * C k / 3)
      = (∑ i ∈ Finset.range I, A i) * (∑ j ∈ Finset.range J, B j) *
        (∑ k ∈ Finset.range K, C k) / 3 := by
  simp only [Finset.sum_mul, Finset.mul_sum, Finset.sum_div]

/-- The sum of all cell volumes telescopes to the closed-form volume of
the spherical sector bounded by the outermost walls. -/
theorem sum_volumes_closed [LinearOrderedField α] (ops : Transcend α)
    (g : Grid α) (r_wall t_wall p_wall : NDArray α) (nr nt np : ℕ)
    (hr : r_wall.shape = [nr + 1]) (hrd : r_wall.data.length = nr + 1)
    (hrm : monotonically_increasing r_wall.data = true)
    (ht : t_wall.shape = [nt + 1]) (htd : t_wall.data.length = nt + 1)
    (htm : monotonically_increasing t_wall.data = true)
    (hp : p_wall.shape = [np + 1]) (hpd : p_wall.data.length = np + 1)
    (hpm : monotonically_increasing p_wall.data = true) :
    sumVolumes (set_walls ops g r_wall t_wall p_wall).1 =
      (wget r_wall nr ^ 3 - wget r_wall 0 ^ 3) *
        (ops.cos (wget t_wall 0) - ops.cos (wget t_wall nt)) *
        (wget p_wall np - wget p_wall 0) / 3 := by
  have hok : walls_ok r_wall t_wall p_wall = true := by
    simp [walls_ok, hr, ht, hp, hrm, htm, hpm]
  rw [set_walls_ok_eq ops g r_wall t_wall p_wall hok]
  simp only [sumVolumes, buildGrid_volumes, Arr3.total]
  simp only [upperSlice_data_length, hrd, htd, hpd, Nat.add_sub_cancel]
  have h1 : (∑ k ∈ Finset.range np, ∑ j ∈ Finset.range nt,
        ∑ i ∈ Finset.range nr,
        (wget (upperSlice r_wall) i ^ 3 - wget (lowerSlice r_wall) i ^ 3) *
          (ops.cos (wget (lowerSlice t_wall) j) -
            ops.cos (wget (upperSlice t_wall) j)) *
          (wget (upperSlice p_wall) k - wget (lowerSlice p_wall) k) / 3)
      = ∑ k ∈ Finset.range np, ∑ j ∈ Finset.range nt, ∑ i ∈ Finset.range nr,
        (wget r_wall (i + 1) ^ 3 - wget r_wall i ^ 3) *
          (ops.cos (wget t_wall j) - ops.cos (wget t_wall (j + 1))) *
          (wget p_wall (k + 1) - wget p_wall k) / 3 := by
    refine Finset.sum_congr rfl fun k hk => Finset.sum_congr rfl fun j hj =>
      Finset.sum_congr rfl fun i hi => ?_
    simp only [Finset.mem_range] at hk hj hi
    rw [wget_upperSlice r_wall i (by omega), wget_lowerSlice r_wall i (by omega),
      wget_upperSlice t_wall j (by omega), wget_lowerSlice t_wall j (by omega),
      wget_upperSlice p_wall k (by omega), wget_lowerSlice p_wall k (by omega)]
  rw [h1]
  have h2 := triple_sum_div3 (fun i => wget r_wall (i + 1) ^ 3 - wget r_wall i ^ 3)
    (fun j => ops.cos (wget t_wall j) - ops.cos (wget t_wall (j + 1)))
    (fun k => wget p_wall (k + 1) - wget p_wall k) nr nt np
  rw [h2, Finset.sum_range_sub (fun i => wget r_wall i ^ 3) nr,
    Finset.sum_range_sub' (fun j => ops.cos (wget t_wall j)) nt,
    Finset.sum_range_sub (fun k => wget p_wall k) np]

/-! ### The claims -/

/-- Concrete inputs used by the witnesses: transcendental operations over
`ℚ` (their values are irrelevant to the witnessed facts) and small
strictly increasing wall arrays. -/
def qOps : Transcend ℚ := ⟨fun _ => 0, fun _ => 0, fun _ => 0, fun _ => 0⟩

def rwW : NDArray ℚ := ⟨[2], [1, 2]⟩

def twW : NDArray ℚ := ⟨[2], [0, 1]⟩

def pwW : NDArray ℚ := ⟨[2], [0, 1]⟩

/-- Claim C1: for strictly increasing 1-D wall arrays of lengths
`nr+1`, `nt+1`, `np+1`, after `set_walls` the `volumes` field is a 3-D
array of shape `(np, nt, nr)` whose entry at `(k, j, i)` is
`(r_wall[i+1]^3 - r_wall[i]^3) * (cos(t_wall[j]) - cos(t_wall[j+1])) *
(p_wall[k+1] - p_wall[k]) / 3`, the exact spherical-wedge volume. -/
theorem claim_C1 [LinearOrderedField α] (ops : Transcend α) (g : Grid α)
    (r_wall t_wall p_wall : NDArray α) (nr nt np : ℕ)
    (hr : r_wall.shape = [nr + 1]) (hrd : r_wall.data.length = nr + 1)
    (hrm : monotonically_increasing r_wall.data = true)
    (ht : t_wall.shape = [nt + 1]) (htd : t_wall.data.length = nt + 1)
    (htm : monotonically_increasing t_wall.data = true)
    (hp : p_wall.shape = [np + 1]) (hpd : p_wall.data.length = np + 1)
    (hpm : monotonically_increasing p_wall.data = true) :
    ∃ V : Arr3 α, (set_walls ops g r_wall t_wall p_wall).1.volumes = some V ∧
      V.d1 = np ∧ V.d2 = nt ∧ V.d3 = nr ∧
      ∀ k < np, ∀ j < nt, ∀ i < nr,
        V.val k j i =
          (wget r_wall (i + 1) ^ 3 - wget r_wall i ^ 3) *
            (ops.cos (wget t_wall j) - ops.cos (wget t_wall (j + 1))) *
            (wget p_wall (k + 1) - wget p_wall k) / 3 := by
  have hok : walls_ok r_wall t_wall p_wall = true := by
    simp [walls_ok, hr, ht, hp, hrm, htm, hpm]
  rw [set_walls_ok_eq ops g r_wall t_wall p_wall hok]
  simp only [buildGrid_volumes]
  refine ⟨_, rfl, ?_, ?_, ?_, ?_⟩
  · simp [upperSlice, List.length_drop, hpd]
  · simp [upperSlice, List.length_drop, htd]
  · simp [upperSlice, List.length_drop, hrd]
  · intro k hk j hj i hi
    dsimp only
    rw [wget_upperSlice r_wall i (by omega), wget_lowerSlice r_wall i (by omega),
      wget_upperSlice t_wall j (by omega), wget_lowerSlice t_wall j (by omega),
      wget_upperSlice p_wall k (by omega), wget_lowerSlice p_wall k (by omega)]

/-- Witness for C1 on the 1-cell grid with walls `[1,2]`, `[0,1]`,
`[0,1]` over `ℚ`. -/
theorem claim_C1_witness :
    ∃ V : Arr3 ℚ, (set_walls qOps (Grid.init ℚ) rwW twW pwW).1.volumes = some V ∧
      V.d1 = 1 ∧ V.d2 = 1 ∧ V.d3 = 1 ∧
      ∀ k < 1, ∀ j < 1, ∀ i < 1,
        V.val k j i =
          (wget rwW (i + 1) ^ 3 - wget rwW i ^ 3) *
            (qOps.cos (wget twW j) - qOps.cos (wget twW (j + 1))) *
            (wget pwW (k + 1) - wget pwW k) / 3 :=
  claim_C1 qOps (Grid.init ℚ) rwW twW pwW 1 1 1 rfl rfl (by decide)
    rfl rfl (by decide) rfl rfl (by decide)

/-- Claim C2: after `set_walls` the radial centers are the geometric
means `10^((log10(r_wall[i]) + log10(r_wall[i+1])) / 2)` of adjacent
walls, except that a zero innermost wall forces `r[0] = r_wall[1] / 2`
(a plain field element — in this embedding the value is total, so the
float hazards NaN/inf of `log10(0)` cannot arise); the polar and
azimuthal centers are arithmetic midpoints of adjacent walls. -/
theorem claim_C2 [LinearOrderedField α] (ops : Transcend α) (g : Grid α)
    (r_wall t_wall p_wall : NDArray α) (nr nt np : ℕ)
    (hr : r_wall.shape = [nr + 1]) (hrd : r_wall.data.length = nr + 1)
    (hrm : monotonically_increasing r_wall.data = true)
    (ht : t_wall.shape = [nt + 1]) (htd : t_wall.data.length = nt + 1)
    (htm : monotonically_increasing t_wall.data = true)
    (hp : p_wall.shape = [np + 1]) (hpd : p_wall.data.length = np + 1)
    (hpm : monotonically_increasing p_wall.data = true) :
    ∃ R T P : NDArray α,
      (set_walls ops g r_wall t_wall p_wall).1.r = some R ∧
      (set_walls ops g r_wall t_wall p_wall).1.t = some T ∧
      (set_walls ops g r_wall t_wall p_wall).1.p = some P ∧
      (wget r_wall 0 = 0 → 0 < nr → wget R 0 = wget r_wall 1 / 2) ∧
      (∀ i < nr, (i = 0 → wget r_wall 0 ≠ 0) →
        wget R i = ops.exp10 ((ops.log10 (wget r_wall i) +
          ops.log10 (wget r_wall (i + 1))) / 2)) ∧
      (∀ j < nt, wget T j = (wget t_wall j + wget t_wall (j + 1)) / 2) ∧
      (∀ k < np, wget P k = (wget p_wall k + wget p_wall (k + 1)) / 2) := by
  have hok : walls_ok r_wall t_wall p_wall = true := by
    simp [walls_ok, hr, ht, hp, hrm, htm, hpm]
  rw [set_walls_ok_eq ops g r_wall t_wall p_wall hok]
  simp only [buildGrid_r, buildGrid_t, buildGrid_p, hrd, htd, hpd,
    Nat.add_sub_cancel]
  refine ⟨_, _, _, rfl, rfl, rfl, ?_, ?_, ?_, ?_⟩
  · intro h0 hnr
    rw [if_pos h0]
    unfold wget
    rw [getD_lt _ _ _ (by simpa using hnr), List.getElem_set_self]
  · intro i hi hne0
    by_cases h0 : wget r_wall 0 = 0
    · have hine : 0 ≠ i := fun h => hne0 h.symm h0
      rw [if_pos h0]
      unfold wget
      rw [getD_lt _ _ _ (by simpa using hi), List.getElem_set_ne hine]
      simp
    · rw [if_neg h0]
      exact wget_rangeMap _ _ _ _ hi
  · intro j hj
    exact wget_rangeMap _ _ _ _ hj
  · intro k hk
    exact wget_rangeMap _ _ _ _ hk

/-- Witness for C2 on walls `r = [0, 2]` (zero innermost wall),
`t = p = [0, 1]` over `ℚ`. -/
theorem claim_C2_witness :
    ∃ R T P : NDArray ℚ,
      (set_walls qOps (Grid.init ℚ) ⟨[2], [0, 2]⟩ twW pwW).1.r = some R ∧
      (set_walls qOps (Grid.init ℚ) ⟨[2], [0, 2]⟩ twW pwW).1.t = some T ∧
      (set_walls qOps (Grid.init ℚ) ⟨[2], [0, 2]⟩ twW pwW).1.p = some P ∧
      (wget (⟨[2], [0, 2]⟩ : NDArray ℚ) 0 = 0 → 0 < 1 →
        wget R 0 = wget (⟨[2], [0, 2]⟩ : NDArray ℚ) 1 / 2) ∧
      (∀ i < 1, (i = 0 → wget (⟨[2], [0, 2]⟩ : NDArray ℚ) 0 ≠ 0) →
        wget R i = qOps.exp10 ((qOps.log10 (wget (⟨[2], [0, 2]⟩ : NDArray ℚ) i) +
          qOps.log10 (wget (⟨[2], [0, 2]⟩ : NDArray ℚ) (i + 1))) / 2)) ∧
      (∀ j < 1, wget T j = (wget twW j + wget twW (j + 1)) / 2) ∧
      (∀ k < 1, wget P k = (wget pwW k + wget pwW (k + 1)) / 2) :=
  claim_C2 qOps (Grid.init ℚ) ⟨[2], [0, 2]⟩ twW pwW 1 1 1 rfl rfl (by decide)
    rfl rfl (by decide) rfl rfl (by decide)

/-- Claim C3: after `set_walls` the `areas` field has shape
`(6, np, nt, nr)` with face order [r-min, r-max, t-min, t-max, p-min,
p-max]: the r-faces are `r_wall^2 * dcost * dp` at the min and max radial
wall, the t-faces are `0.5 * dr2 * sin(t_wall) * dp` at the min and max
polar wall, and the two p-faces both carry the same value
`0.5 * dr2 * dt`. -/
theorem claim_C3 [LinearOrderedField α] (ops : Transcend α) (g : Grid α)
    (r_wall t_wall p_wall : NDArray α) (nr nt np : ℕ)
    (hr : r_wall.shape = [nr + 1]) (hrd : r_wall.data.length = nr + 1)
    (hrm : monotonically_increasing r_wall.data = true)
    (ht : t_wall.shape = [nt + 1]) (htd : t_wall.data.length = nt + 1)
    (htm : monotonically_increasing t_wall.data = true)
    (hp : p_wall.shape = [np + 1]) (hpd : p_wall.data.length = np + 1)
    (hpm : monotonically_increasing p_wall.data = true) :
    ∃ A : Arr4 α, (set_walls ops g r_wall t_wall p_wall).1.areas = some A ∧
      A.d0 = 6 ∧ A.d1 = np ∧ A.d2 = nt ∧ A.d3 = nr ∧
      ∀ k < np, ∀ j < nt, ∀ i < nr,
        A.val 0 k j i =
          wget r_wall i ^ 2 *
            (ops.cos (wget t_wall j) - ops.cos (wget t_wall (j + 1))) *
            (wget p_wall (k + 1) - wget p_wall k) ∧
        A.val 1 k j i =
          wget r_wall (i + 1) ^ 2 *
            (ops.cos (wget t_wall j) - ops.cos (wget t_wall (j + 1))) *
            (wget p_wall (k + 1) - wget p_wall k) ∧
        A.val 2 k j i =
          0.5 * (wget r_wall (i + 1) ^ 2 - wget r_wall i ^ 2) *
            ops.sin (wget t_wall j) * (wget p_wall (k + 1) - wget p_wall k) ∧
        A.val 3 k j i =
          0.5 * (wget r_wall (i + 1) ^ 2 - wget r_wall i ^ 2) *
            ops.sin (wget t_wall (j + 1)) *
            (wget p_wall (k + 1) - wget p_wall k) ∧
        A.val 4 k j i =
          0.5 * (wget r_wall (i + 1) ^ 2 - wget r_wall i ^ 2) *
            (wget t_wall (j + 1) - wget t_wall j) ∧
        A.val 5 k j i = A.val 4 k j i := by
  have hok : walls_ok r_wall t_wall p_wall = true := by
    simp [walls_ok, hr, ht, hp, hrm, htm, hpm]
  rw [set_walls_ok_eq ops g r_wall t_wall p_wall hok]
  simp only [buildGrid_areas, hrd, htd, hpd, Nat.add_sub_cancel]
  refine ⟨_, rfl, rfl, rfl, rfl, rfl, ?_⟩
  intro k hk j hj i hi
  have e1 := wget_upperSlice r_wall i (by omega)
  have e2 := wget_lowerSlice r_wall i (by omega)
  have e3 := wget_upperSlice t_wall j (by omega)
  have e4 := wget_lowerSlice t_wall j (by omega)
  have e5 := wget_upperSlice p_wall k (by omega)
  have e6 := wget_lowerSlice p_wall k (by omega)
  refine ⟨?_, ?_, ?_, ?_, ?_, ?_⟩ <;>
    simp [e1, e2, e3, e4, e5, e6]

/-- Witness for C3 on the 1-cell grid with walls `[1,2]`, `[0,1]`,
`[0,1]` over `ℚ`. -/
theorem claim_C3_witness :
    ∃ A : Arr4 ℚ, (set_walls qOps (Grid.init ℚ) rwW twW pwW).1.areas = some A ∧
      A.d0 = 6 ∧ A.d1 = 1 ∧ A.d2 = 1 ∧ A.d3 = 1 ∧
      ∀ k < 1, ∀ j < 1, ∀ i < 1,
        A.val 0 k j i =
          wget rwW i ^ 2 * (qOps.cos (wget twW j) - qOps.cos (wget twW (j + 1))) *
            (wget pwW (k + 1) - wget pwW k) ∧
        A.val 1 k j i =
          wget rwW (i + 1) ^ 2 *
            (qOps.cos (wget twW j) - qOps.cos (wget twW (j + 1))) *
            (wget pwW (k + 1) - wget pwW k) ∧
        A.val 2 k j i =
          0.5 * (wget rwW (i + 1) ^ 2 - wget rwW i ^ 2) *
            qOps.sin (wget twW j) * (wget pwW (k + 1) - wget pwW k) ∧
        A.val 3 k j i =
          0.5 * (wget rwW (i + 1) ^ 2 - wget rwW i ^ 2) *
            qOps.sin (wget twW (j + 1)) * (wget pwW (k + 1) - wget pwW k) ∧
        A.val 4 k j i =
          0.5 * (wget rwW (i + 1) ^ 2 - wget rwW i ^ 2) *
            (wget twW (j + 1) - wget twW j) ∧
        A.val 5 k j i = A.val 4 k j i :=
  claim_C3 qOps (Grid.init ℚ) rwW twW pwW 1 1 1 rfl rfl (by decide)
    rfl rfl (by decide) rfl rfl (by decide)

/-- Claim C9: the sum of all entries of the volumes array equals the
exact closed-form volume of the spherical sector bounded by the
outermost walls, `(r_wall[nr]^3 - r_wall[0]^3) * (cos(t_wall[0]) -
cos(t_wall[nt])) * (p_wall[np] - p_wall[0]) / 3` — the equality is exact
in this embedding, hence within any floating tolerance — and in
particular for `r_wall = [0,1,2]`, `t_wall = [0, pi/2, pi]`,
`p_wall = [0, pi, 2 pi]` with the real trigonometric operations the sum
is `4/3 * pi * 2^3`, the volume of a full sphere of radius 2. -/
theorem claim_C9 :
    (∀ (α : Type) [LinearOrderedField α] (ops : Transcend α) (g : Grid α)
      (r_wall t_wall p_wall : NDArray α) (nr nt np : ℕ),
      r_wall.shape = [nr + 1] → r_wall.data.length = nr + 1 →
      monotonically_increasing r_wall.data = true →
      t_wall.shape = [nt + 1] → t_wall.data.length = nt + 1 →
      monotonically_increasing t_wall.data = true →
      p_wall.shape = [np + 1] → p_wall.data.length = np + 1 →
      monotonically_increasing p_wall.data = true →
      sumVolumes (set_walls ops g r_wall t_wall p_wall).1 =
        (wget r_wall nr ^ 3 - wget r_wall 0 ^ 3) *
          (ops.cos (wget t_wall 0) - ops.cos (wget t_wall nt)) *
          (wget p_wall np - wget p_wall 0) / 3) ∧
    sumVolumes (set_walls
        (⟨Real.cos, Real.sin, fun x => Real.log x / Real.log 10,
          fun x => Real.rpow 10 x⟩ : Transcend ℝ)
        (Grid.init ℝ) ⟨[3], [0, 1, 2]⟩
        ⟨[3], [0, Real.pi / 2, Real.pi]⟩
        ⟨[3], [0, Real.pi, 2 * Real.pi]⟩).1 =
      4 / 3 * Real.pi * 2 ^ 3 := by
  constructor
  · intro α _ ops g r_wall t_wall p_wall nr nt np hr hrd hrm ht htd htm hp hpd hpm
    exact sum_volumes_closed ops g r_wall t_wall p_wall nr nt np
      hr hrd hrm ht htd htm hp hpd hpm
  · have hπ := Real.pi_pos
    have hm2 : monotonically_increasing
        (([0, Real.pi / 2, Real.pi] : List ℝ)) = true := by
      simp only [monotonically_increasing, Bool.and_eq_true, decide_eq_true_eq]
      refine ⟨by positivity, by linarith, trivial⟩
    have hm3 : monotonically_increasing
        (([0, Real.pi, 2 * Real.pi] : List ℝ)) = true := by
      simp only [monotonically_increasing, Bool.and_eq_true, decide_eq_true_eq]
      refine ⟨hπ, by linarith, trivial⟩
    have hm1 : monotonically_increasing (([0, 1, 2] : List ℝ)) = true := by
      simp only [monotonically_increasing, Bool.and_eq_true, decide_eq_true_eq]
      refine ⟨by norm_num, by norm_num, trivial⟩
    have h := sum_volumes_closed
      (⟨Real.cos, Real.sin, fun x => Real.log x / Real.log 10,
        fun x => Real.rpow 10 x⟩ : Transcend ℝ)
      (Grid.init ℝ) ⟨[3], [0, 1, 2]⟩
      ⟨[3], [0, Real.pi / 2, Real.pi]⟩ ⟨[3], [0, Real.pi, 2 * Real.pi]⟩
      2 2 2 rfl rfl hm1 rfl rfl hm2 rfl rfl hm3
    rw [h]
    simp only [wget, List.getD_cons_zero, List.getD_cons_succ]
    simp [Real.cos_pi, Real.cos_zero]
    ring

/-- Witness for C9's quantified conjunct on the 1-cell grid with walls
`[1,2]`, `[0,1]`, `[0,1]` over `ℚ`. -/
theorem claim_C9_witness :
    sumVolumes (set_walls qOps (Grid.init ℚ) rwW twW pwW).1 =
      (wget rwW 1 ^ 3 - wget rwW 0 ^ 3) *
        (qOps.cos (wget twW 0) - qOps.cos (wget twW 1)) *
        (wget pwW 1 - wget pwW 0) / 3 :=
  claim_C9.1 ℚ qOps (Grid.init ℚ) rwW twW pwW 1 1 1 rfl rfl (by decide)
    rfl rfl (by decide) rfl rfl (by decide)

/-- Claim C10: a successful `set_walls` never touches the quantity
mapping — all stored entries survive unchanged even when the new grid
shape differs from a stored quantity's shape (no revalidation happens
inside `set_walls`). -/
theorem claim_C10 [LinearOrderedField α] (ops : Transcend α) (g : Grid α)
    (r_wall t_wall p_wall : NDArray α)
    (h : (set_walls ops g r_wall t_wall p_wall).2 = none) :
    ((set_walls ops g r_wall t_wall p_wall).1).quantities = g.quantities := by
  by_cases hok : walls_ok r_wall t_wall p_wall = true
  · rw [set_walls_ok_eq ops g r_wall t_wall p_wall hok]
  · obtain ⟨msg, hmsg⟩ := set_walls_fail_eq ops g r_wall t_wall p_wall
      (by simpa using hok)
    rw [hmsg] at h
    simp at h

/-- A grid carrying a stored quantity of shape `(3, 3, 3)`, used to show
that `set_walls` to the 1-cell shape `(1, 1, 1)` keeps it as is. -/
def gQ : Grid ℚ :=
  { Grid.init ℚ with
    quantities := [("density", PyVal.arr ⟨[3, 3, 3], List.replicate 27 1⟩)] }

/-- Witness for C10: the stored `(3, 3, 3)` quantity survives a
`set_walls` that shrinks the grid shape to `(1, 1, 1)`. -/
theorem claim_C10_witness :
    ((set_walls qOps gQ rwW twW pwW).1).quantities = gQ.quantities :=
  claim_C10 qOps gQ rwW twW pwW (by decide)

/-- Claim C6: `read` on a container whose geometry section declares a
grid type other than `"sph_pol"` fails with the `ValueError("Grid is not
spherical polar")` raised at line 212-213, before any wall data is read
and with the mesh state unchanged. -/
theorem claim_C6 (g : Grid α) (group : H5Group α) (qsel : Option (List String))
    (h : group.geo.grid_type ≠ "sph_pol") :
    read g group qsel =
      (g, some (PyErr.valueError "Grid is not spherical polar")) := by
  simp [read, h]

/-- Witness for C6 on a container tagged `"amr"`. -/
theorem claim_C6_witness :
    read (Grid.init ℚ) ⟨⟨"amr", "", rwW, twW, pwW⟩, []⟩ none =
      (Grid.init ℚ, some (PyErr.valueError "Grid is not spherical polar")) :=
  claim_C6 (Grid.init ℚ) ⟨⟨"amr", "", rwW, twW, pwW⟩, []⟩ none (by decide)

/-- Claim C5 evidence (code bug): on a container correctly tagged
`"sph_pol"`, `read` raises `AttributeError` at line 215 — `self.set`
does not exist, the class's wall-setting method is `set_walls` — so the
fingerprint is never recomputed and the stored `geometry` tag is never
compared, whatever its value: the run below fails identically for two
different stored fingerprints, never with the integrity error of line
218-219. -/
theorem claim_C5_read_attribute_error :
    read (Grid.init ℚ)
        ⟨⟨"sph_pol", "0123456789abcdef0123456789abcdef", rwW, twW, pwW⟩, []⟩
        none =
      (Grid.init ℚ, some (PyErr.attributeError "set")) ∧
    read (Grid.init ℚ)
        ⟨⟨"sph_pol", "ffffffffffffffffffffffffffffffff", rwW, twW, pwW⟩, []⟩
        none =
      (Grid.init ℚ, some (PyErr.attributeError "set")) :=
  ⟨rfl, rfl⟩

/-- The 1-cell grid of shape `(1, 1, 1)` produced from the witness
walls, used as the receiver of `_check_array_dimensions` runs and as
the pre-call state of the non-atomic `set_walls` run below. -/
def gW : Grid ℚ := (set_walls qOps (Grid.init ℚ) rwW twW pwW).1

/-- Claim C7 evidence (code bug): `set_walls` is not atomic on the
source.  The radial wall array `[0.]` passes the full validation block —
it is 1-D and vacuously strictly increasing (first conjunct) — yet the
run raises `IndexError` at line 84 (`r_wall[1]` does not exist), not the
claimed validation `ValueError`, after lines 70-82 have already replaced
the cell counts, the stored walls and the radial centers (`nr` went from
1 to 0, the new wall array and the new empty `r` are stored), while the
polar centers, `volumes` and `areas` still hold the values derived from
the previous walls — a partial-success state, neither the untouched
pre-call state nor a full replacement. -/
theorem claim_C7_partial_mutation :
    walls_ok (⟨[1], [0]⟩ : NDArray ℚ) twW pwW = true ∧
    (set_walls_trace qOps gW ⟨[1], [0]⟩ twW pwW).2 =
      some (PyErr.indexError "index 1 is out of bounds for axis 0 with size 1") ∧
    (set_walls_trace qOps gW ⟨[1], [0]⟩ twW pwW).1.nr = some 0 ∧
    gW.nr = some 1 ∧
    (set_walls_trace qOps gW ⟨[1], [0]⟩ twW pwW).1.r_wall = some ⟨[1], [0]⟩ ∧
    (set_walls_trace qOps gW ⟨[1], [0]⟩ twW pwW).1.r = some ⟨[0], []⟩ ∧
    (set_walls_trace qOps gW ⟨[1], [0]⟩ twW pwW).1.t = gW.t ∧
    (set_walls_trace qOps gW ⟨[1], [0]⟩ twW pwW).1.volumes = gW.volumes ∧
    (set_walls_trace qOps gW ⟨[1], [0]⟩ twW pwW).1.areas = gW.areas :=
  ⟨by decide, rfl, rfl, rfl, rfl, rfl, rfl, rfl, rfl⟩

def aW : NDArray ℚ := ⟨[1, 1, 1], [7]⟩

def bW : NDArray ℚ := ⟨[1, 1, 1], [8]⟩

/-- Claim C4 evidence (code bug): a single array of the grid shape is
accepted; a list of arrays of the grid shape is accepted but
`_check_array_dimensions` merely returns `None` — the stacked
`(2, 1, 1, 1)` array (`stack_list`, the value the local conversion at
lines 176-179 computes) is discarded, not stored; and mismatching
shapes are rejected with a `ValueError` reporting the offending shape
against the expected shape, both for a single array and inside a
list. -/
theorem claim_C4_stack_discarded :
    check_array_dimensions gW (PyVal.arr aW) = Except.ok () ∧
    check_array_dimensions gW (PyVal.lst [aW, bW]) = Except.ok () ∧
    stack_list gW [aW, bW] = ⟨[2, 1, 1, 1], [7, 8]⟩ ∧
    check_array_dimensions gW (PyVal.arr ⟨[2, 1, 1], [7, 8]⟩) =
      Except.error (PyErr.valueShapeError
        "Array does not have the right dimensions" [2, 1, 1]
        (some [1, 1, 1])) ∧
    check_array_dimensions gW (PyVal.lst [aW, ⟨[2, 1, 1], [7, 8]⟩]) =
      Except.error (PyErr.valueShapeError
        "Arrays in list do not have the right dimensions" [2, 1, 1]
        (some [1, 1, 1])) :=
  ⟨rfl, rfl, by decide, rfl, rfl⟩

end Hyperion
